import Mathlib

/-!
Verification of the ocean-whisper-watch hazard-reporting application:
a shallow embedding of the role resolver, the credibility scorer, the
dashboard report filter, the realtime event handlers and the report
submission flow, with theorems settling the specification's claims.
-/

namespace Owatch

/-! ## Roles and the role resolver -/

/-- The three application roles, `user_role AS ENUM ('citizen', 'authority', 'admin')`
in the migration, `type UserRole = 'citizen' | 'authority' | 'admin'` in the client. -/
inductive UserRole
  | citizen
  | authority
  | admin
  deriving DecidableEq, Repr, Fintype

/-- Postgres sorts an enum column by declaration order.  The declaration order of
`user_role` is `('citizen', 'authority', 'admin')`, so `ORDER BY role ASC` uses
this ordinal. -/
def UserRole.enumOrdinal : UserRole → Nat
  | .citizen => 0
  | .authority => 1
  | .admin => 2

/-- The `roleHierarchy` object from `useUserRole.hasRole`:
`{ admin: 3, authority: 2, citizen: 1 }`. -/
def roleHierarchy : UserRole → Nat
  | .admin => 3
  | .authority => 2
  | .citizen => 1

/-- The sort key of the SQL function `get_user_role`:
`CASE role WHEN 'admin' THEN 1 WHEN 'authority' THEN 2 WHEN 'citizen' THEN 3 END`. -/
def getUserRoleSortKey : UserRole → Nat
  | .admin => 1
  | .authority => 2
  | .citizen => 3

/-- `ORDER BY key ASC LIMIT 1` over a list of rows: the first row under a stable
ascending sort by `key`, i.e. the earliest row of minimal key. -/
def firstByKey (key : UserRole → Nat) : List UserRole → Option UserRole
  | [] => none
  | r :: rs =>
    match firstByKey key rs with
    | none => some r
    | some b => if key r ≤ key b then some r else some b

/-- The SQL function `get_user_role(_user_id)`: the user's role rows ordered by
`getUserRoleSortKey` ascending, `LIMIT 1`. -/
def get_user_role (rows : List UserRole) : Option UserRole :=
  firstByKey getUserRoleSortKey rows

/-- The client role resolver `useUserRole.fetchUserRole`, as a function of the
authenticated user (its id, if any), the user's `user_roles` rows, and whether
the lookup errors.  The query is
`select role ... order('role', ascending: true) limit(1) single()`; since
`role` is the Postgres enum, ascending order is by `UserRole.enumOrdinal`.
No authenticated user sets the role to `none`; a lookup error, or an empty
result (the `PGRST116` path, `data` null), defaults to `citizen`. -/
def fetchUserRole (user : Option String) (rows : List UserRole)
    (lookupFails : Bool) : Option UserRole :=
  match user with
  | none => none
  | some uid =>
    if uid = "" then none
    else if lookupFails then some .citizen
    else
      match firstByKey UserRole.enumOrdinal rows with
      | none => some .citizen
      | some r => some r

/-- The client check `useUserRole.hasRole(requiredRole)`:
false when no role is resolved, otherwise
`roleHierarchy[role] >= roleHierarchy[requiredRole]`. -/
def hasRole (role : Option UserRole) (required : UserRole) : Bool :=
  match role with
  | none => false
  | some r => decide (roleHierarchy required ≤ roleHierarchy r)

/-! ## Credibility scorer -/

/-- The SQL function `calculate_credibility_score`.  `DECIMAL(3,2)` arithmetic is
exact decimal arithmetic, embedded in `ℚ`: base `0.1`; `+0.3` for an image;
`+0.2` for a location; `+0.1` for `description_length > 50`;
`+0.3` for `nearby_reports_count > 0`; capped at `1.0`. -/
def calculate_credibility_score (has_image has_location : Bool)
    (description_length nearby_reports_count : Int) : ℚ :=
  let s0 : ℚ := 1/10
  let s1 := if has_image then s0 + 3/10 else s0
  let s2 := if has_location then s1 + 2/10 else s1
  let s3 := if description_length > 50 then s2 + 1/10 else s2
  let s4 := if nearby_reports_count > 0 then s3 + 3/10 else s3
  if s4 > 1 then 1 else s4

/-! ## Dashboard reports, filtering, and realtime events -/

/-- The fields of a `hazard_reports` row the dashboard filter and the realtime
handlers inspect: `id`, nullable `urgency` text, nullable `credibility_score`.
`description` stands in for the remaining payload fields. -/
structure HazardReport where
  id : String
  urgency : Option String
  credibility_score : Option ℚ
  description : String
  deriving DecidableEq, Repr

/-- The expression `report.credibility_score || 0.5` in `filteredReports`:
JavaScript `||` substitutes `0.5` both for a null score and for a score equal
to `0`, which is falsy. -/
def reportEffectiveScore (cs : Option ℚ) : ℚ :=
  match cs with
  | none => 5/10
  | some v => if v = 0 then 5/10 else v

/-- The predicate of `MapDashboard.filteredReports`, translated branch for
branch: drop when the urgency filter is not `"all"` and differs from the
report's urgency; then, when the credibility filter is not `"all"`, drop by
band on the effective score; otherwise keep. -/
def reportPassesFilters (filter credibilityFilter : String)
    (report : HazardReport) : Bool :=
  if filter ≠ "all" ∧ report.urgency ≠ some filter then false
  else if credibilityFilter = "all" then true
  else
    let score := reportEffectiveScore report.credibility_score
    if credibilityFilter = "high" ∧ score < 7/10 then false
    else if credibilityFilter = "medium" ∧ (score < 4/10 ∨ score ≥ 7/10) then false
    else if credibilityFilter = "low" ∧ score ≥ 4/10 then false
    else true

/-- `MapDashboard.filteredReports`: the fetched list filtered by the two
client-side filters. -/
def filteredReports (filter credibilityFilter : String)
    (reports : List HazardReport) : List HazardReport :=
  reports.filter (reportPassesFilters filter credibilityFilter)

/-- The claim's credibility bands, stated on a score `s` as the spec words
them: high iff `s ≥ 0.70`, medium iff `0.40 ≤ s < 0.70`, low iff `s < 0.40`. -/
def claimCredBand (credibilityFilter : String) (s : ℚ) : Prop :=
  credibilityFilter = "all" ∨
  (credibilityFilter = "high" ∧ 7/10 ≤ s) ∨
  (credibilityFilter = "medium" ∧ 4/10 ≤ s ∧ s < 7/10) ∨
  (credibilityFilter = "low" ∧ s < 4/10)

/-- The keep predicate as the claim words it, on a report whose stored score
is `s`: the urgency conjunct ANDed with `claimCredBand` on the stored score. -/
def claimKeepsReport (filter credibilityFilter : String)
    (report : HazardReport) (s : ℚ) : Prop :=
  (filter = "all" ∨ report.urgency = some filter) ∧ claimCredBand credibilityFilter s

/-- The dashboard's INSERT change handler: prepend the new report,
`setReports(prev => [mappedReport, ...prev])`. -/
def onInsertEvent (newReport : HazardReport)
    (reports : List HazardReport) : List HazardReport :=
  newReport :: reports

/-- The dashboard's UPDATE change handler: replace by id,
`prev.map(report => report.id === updatedReport.id ? mappedReport : report)`. -/
def onUpdateEvent (updatedReport : HazardReport)
    (reports : List HazardReport) : List HazardReport :=
  reports.map fun report =>
    if report.id = updatedReport.id then updatedReport else report

/-! ## Report intake (`ReportForm.handleSubmit`) -/

/-- The form state of `ReportForm`. -/
structure FormData where
  hazardType : String
  description : String
  location : String
  contactNumber : String
  deriving DecidableEq, Repr

/-- The side effects `handleSubmit` can perform against the backend. -/
inductive SubmitAction
  | uploadImage
  | scoreRpc
  | insertReport
  deriving DecidableEq, Repr

/-- The terminal outcome of one `handleSubmit` run, one constructor per
distinct user-visible toast. -/
inductive SubmitOutcome
  | authRequired
  | missingInformation
  | uploadFailed
  | insertFailed
  | success
  deriving DecidableEq, Repr

/-- The row handed to `supabase.from('hazard_reports').insert({...})`. -/
structure NewReportRow where
  user_id : String
  hazard_type : String
  description : String
  location : String
  contact_number : Option String
  latitude : Option ℚ
  longitude : Option ℚ
  image_url : Option String
  credibility_score : ℚ
  deriving DecidableEq, Repr

/-- `!!(currentLocation?.latitude && currentLocation?.longitude)`: both
coordinates present and truthy (a literal `0` coordinate is falsy). -/
def submitHasLocation : Option (ℚ × ℚ) → Bool
  | some (la, lo) => decide (la ≠ 0 ∧ lo ≠ 0)
  | none => false

/-- The insert payload built by `handleSubmit`: `|| null` on the optional
fields treats the empty contact string and `0` coordinates as absent, and
`credibilityScore || 0.5` defaults a null or zero rpc result to `0.5`. -/
def submitInsertRow (uid : String) (form : FormData)
    (currentLocation : Option (ℚ × ℚ)) (imageUrl : Option String)
    (credibilityScore : Option ℚ) : NewReportRow :=
  { user_id := uid
    hazard_type := form.hazardType
    description := form.description
    location := form.location
    contact_number := if form.contactNumber = "" then none else some form.contactNumber
    latitude :=
      match currentLocation with
      | some (la, _) => if la = 0 then none else some la
      | none => none
    longitude :=
      match currentLocation with
      | some (_, lo) => if lo = 0 then none else some lo
      | none => none
    image_url := imageUrl
    credibility_score :=
      match credibilityScore with
      | some s => if s = 0 then 5/10 else s
      | none => 5/10 }

/-- `ReportForm.handleSubmit` as a pure function of the authenticated user,
the form state, the selected image, the captured location, fault flags for
the three backend calls, and the current report store.  Returns the outcome,
the resulting store, and the backend actions attempted, in order.  Control
flow follows the source: auth check, required-field check, image upload
(a failure throws and aborts), scoring rpc (its error is ignored; a failed
call leaves `data` null), then the insert. -/
def handleSubmit (user : Option String) (form : FormData)
    (imageFile : Option String) (currentLocation : Option (ℚ × ℚ))
    (uploadFails rpcFails insertFails : Bool)
    (store : List NewReportRow) :
    SubmitOutcome × List NewReportRow × List SubmitAction :=
  match user with
  | none => (.authRequired, store, [])
  | some uid =>
    if form.hazardType = "" ∨ form.description = "" ∨ form.location = "" then
      (.missingInformation, store, [])
    else
      match imageFile with
      | some fileName =>
        if uploadFails then (.uploadFailed, store, [.uploadImage])
        else
          handleSubmitAfterUpload uid form (some fileName) true currentLocation
            rpcFails insertFails store [SubmitAction.uploadImage]
      | none =>
        handleSubmitAfterUpload uid form none false currentLocation
          rpcFails insertFails store []
where
  /-- The tail of `handleSubmit` after a successful (or skipped) upload:
  the scoring rpc and the insert. -/
  handleSubmitAfterUpload (uid : String) (form : FormData)
      (imageUrl : Option String) (hasImage : Bool)
      (currentLocation : Option (ℚ × ℚ)) (rpcFails insertFails : Bool)
      (store : List NewReportRow) (acts : List SubmitAction) :
      SubmitOutcome × List NewReportRow × List SubmitAction :=
    let credibilityScore : Option ℚ :=
      if rpcFails then none
      else some (calculate_credibility_score hasImage
        (submitHasLocation currentLocation) (form.description.length : Int) 0)
    let row := submitInsertRow uid form currentLocation imageUrl credibilityScore
    if insertFails then
      (.insertFailed, store, acts ++ [.scoreRpc, .insertReport])
    else
      (.success, store ++ [row], acts ++ [.scoreRpc, .insertReport])

/-! ## Shared lemmas about the scorer -/

/-- The scorer equals the clamped additive formula. -/
theorem calculate_credibility_score_eq_min (hi hl : Bool) (dl nc : Int) :
    calculate_credibility_score hi hl dl nc =
      min ((1/10 : ℚ) + (if hi then 3/10 else 0) + (if hl then 2/10 else 0) +
        (if dl > 50 then (1/10 : ℚ) else 0) + (if nc > 0 then (3/10 : ℚ) else 0)) 1 := by
  simp only [calculate_credibility_score]
  split_ifs <;> norm_num [min_def] <;> linarith

/-- The scorer stays within `[0.1, 1]`. -/
theorem calculate_credibility_score_bounds (hi hl : Bool) (dl nc : Int) :
    1/10 ≤ calculate_credibility_score hi hl dl nc ∧
    calculate_credibility_score hi hl dl nc ≤ 1 := by
  simp only [calculate_credibility_score]
  split_ifs <;> norm_num

/-- The scorer is monotone in the description length. -/
theorem calculate_credibility_score_mono_length (hi hl : Bool) (dl nc dl' : Int)
    (hdl : dl ≤ dl') :
    calculate_credibility_score hi hl dl nc ≤ calculate_credibility_score hi hl dl' nc := by
  simp only [calculate_credibility_score]
  split_ifs <;> norm_num <;> linarith

/-- The scorer is monotone in the nearby-report count. -/
theorem calculate_credibility_score_mono_nearby (hi hl : Bool) (dl nc nc' : Int)
    (hnc : nc ≤ nc') :
    calculate_credibility_score hi hl dl nc ≤ calculate_credibility_score hi hl dl nc' := by
  simp only [calculate_credibility_score]
  split_ifs <;> norm_num <;> linarith

/-- Attaching an image never lowers the score. -/
theorem calculate_credibility_score_mono_image (hl : Bool) (dl nc : Int) :
    calculate_credibility_score false hl dl nc ≤ calculate_credibility_score true hl dl nc := by
  simp only [calculate_credibility_score]
  split_ifs <;> norm_num <;> linarith

/-- Detecting a location never lowers the score. -/
theorem calculate_credibility_score_mono_location (hi : Bool) (dl nc : Int) :
    calculate_credibility_score hi false dl nc ≤ calculate_credibility_score hi true dl nc := by
  simp only [calculate_credibility_score]
  split_ifs <;> norm_num <;> linarith

/-! ## Claim theorems -/

/-- C2: for all inputs the credibility score equals
`min(0.1 + 0.3·[hasImage] + 0.2·[hasLocation] + 0.1·[descriptionLength > 50]
+ 0.3·[nearbyReportsCount > 0], 1.0)`, and in particular
`score(false,false,0,0) = 0.10`, `score(true,false,10,0) = 0.40`, and
`score(true,true,60,1) = 1.00`. -/
theorem calculate_credibility_score_formula (hi hl : Bool) (dl nc : Int) :
    calculate_credibility_score hi hl dl nc =
      min ((1/10 : ℚ) + (if hi then 3/10 else 0) + (if hl then 2/10 else 0) +
        (if dl > 50 then (1/10 : ℚ) else 0) + (if nc > 0 then (3/10 : ℚ) else 0)) 1 ∧
    calculate_credibility_score false false 0 0 = 1/10 ∧
    calculate_credibility_score true false 10 0 = 4/10 ∧
    calculate_credibility_score true true 60 1 = 1 :=
  ⟨calculate_credibility_score_eq_min hi hl dl nc,
    by norm_num [calculate_credibility_score],
    by norm_num [calculate_credibility_score],
    by norm_num [calculate_credibility_score]⟩

/-- C3: the credibility score always lies in `[0.1, 1.0]` and is monotonically
non-decreasing in each argument independently: flipping `hasImage` or
`hasLocation` from false to true, increasing the description length, or
increasing the nearby-report count never decreases the score. -/
theorem calculate_credibility_score_range_mono (hi hl : Bool)
    (dl nc dl' nc' : Int) (hdl : dl ≤ dl') (hnc : nc ≤ nc') :
    (1/10 ≤ calculate_credibility_score hi hl dl nc ∧
      calculate_credibility_score hi hl dl nc ≤ 1) ∧
    calculate_credibility_score false hl dl nc ≤ calculate_credibility_score true hl dl nc ∧
    calculate_credibility_score hi false dl nc ≤ calculate_credibility_score hi true dl nc ∧
    calculate_credibility_score hi hl dl nc ≤ calculate_credibility_score hi hl dl' nc ∧
    calculate_credibility_score hi hl dl nc ≤ calculate_credibility_score hi hl dl nc' :=
  ⟨calculate_credibility_score_bounds hi hl dl nc,
    calculate_credibility_score_mono_image hl dl nc,
    calculate_credibility_score_mono_location hi dl nc,
    calculate_credibility_score_mono_length hi hl dl nc dl' hdl,
    calculate_credibility_score_mono_nearby hi hl dl nc nc' hnc⟩

/-- Witness for C3 at `hasImage = true`, `hasLocation = false`,
lengths `10 ≤ 60`, counts `0 ≤ 1`. -/
theorem calculate_credibility_score_range_mono_witness :
    (1/10 ≤ calculate_credibility_score true false 10 0 ∧
      calculate_credibility_score true false 10 0 ≤ 1) ∧
    calculate_credibility_score false false 10 0 ≤ calculate_credibility_score true false 10 0 ∧
    calculate_credibility_score true false 10 0 ≤ calculate_credibility_score true true 10 0 ∧
    calculate_credibility_score true false 10 0 ≤ calculate_credibility_score true false 60 0 ∧
    calculate_credibility_score true false 10 0 ≤ calculate_credibility_score true false 10 1 :=
  calculate_credibility_score_range_mono true false 10 0 60 1 (by norm_num) (by norm_num)

/-- C4: for every resolved role, `hasRole` holds exactly when the resolved
role's rank is at least the required role's rank under
`admin = 3 > authority = 2 > citizen = 1`; the relation is reflexive and
transitive over the rank order, an admin-resolved user satisfies required
role citizen, and a citizen-resolved user fails required role authority. -/
theorem hasRole_rank_characterization :
    (∀ r required : UserRole,
      hasRole (some r) required = true ↔ roleHierarchy required ≤ roleHierarchy r) ∧
    (∀ r : UserRole, hasRole (some r) r = true) ∧
    (∀ a b c : UserRole, hasRole (some a) b = true → hasRole (some b) c = true →
      hasRole (some a) c = true) ∧
    hasRole (some UserRole.admin) UserRole.citizen = true ∧
    hasRole (some UserRole.citizen) UserRole.authority = false := by
  decide

/-- Witness for C4: transitivity applied at `admin`, `authority`, `citizen`. -/
theorem hasRole_rank_characterization_witness :
    hasRole (some UserRole.admin) UserRole.citizen = true :=
  hasRole_rank_characterization.2.2.1 UserRole.admin UserRole.authority UserRole.citizen
    (by decide) (by decide)

/-- C1: on a user holding both the citizen and the admin role rows, the client
resolver `fetchUserRole` returns `citizen` — the lowest-ranked role, because
`order('role', ascending)` sorts by the Postgres enum declaration order
`('citizen', 'authority', 'admin')` — while the SQL `get_user_role` (and the
code's own comment, which expects admin first) gives the highest-ranked role
`admin`.  This refutes the claim that the client role resolver returns the
highest-ranked role. -/
theorem fetchUserRole_multi_role_divergence :
    fetchUserRole (some "u") [UserRole.citizen, UserRole.admin] false =
      some UserRole.citizen ∧
    get_user_role [UserRole.citizen, UserRole.admin] = some UserRole.admin ∧
    roleHierarchy UserRole.citizen < roleHierarchy UserRole.admin := by
  decide

/-- C9: for an authenticated user, a failing role lookup and an empty
`user_roles` result both resolve to `citizen` — the failure does not
propagate and never yields a higher-privileged role. -/
theorem fetchUserRole_defaults_citizen (uid : String) (rows : List UserRole)
    (h : uid ≠ "") :
    fetchUserRole (some uid) rows true = some UserRole.citizen ∧
    fetchUserRole (some uid) [] false = some UserRole.citizen := by
  simp [fetchUserRole, firstByKey, h]

/-- Witness for C9 at user id `"u"` with an admin role row present. -/
theorem fetchUserRole_defaults_citizen_witness :
    fetchUserRole (some "u") [UserRole.admin] true = some UserRole.citizen ∧
    fetchUserRole (some "u") [] false = some UserRole.citizen :=
  fetchUserRole_defaults_citizen "u" [UserRole.admin] (by decide)

/-- C10: with no authenticated user the resolved role is `null` (not
`citizen`), and `hasRole` is false for every required role, citizen
included. -/
theorem fetchUserRole_no_user (rows : List UserRole) (lookupFails : Bool)
    (required : UserRole) :
    fetchUserRole none rows lookupFails = none ∧
    hasRole none required = false ∧
    hasRole (fetchUserRole none rows lookupFails) required = false := by
  simp [fetchUserRole, hasRole]

/-- Shared helper: mapping the id-replacement function over a list with no
matching id is the identity. -/
theorem map_replace_no_match (u : HazardReport) (l : List HazardReport)
    (h : ∀ x ∈ l, x.id ≠ u.id) :
    l.map (fun x => if x.id = u.id then u else x) = l := by
  induction l with
  | nil => rfl
  | cons a t ih =>
    simp only [List.map_cons]
    rw [if_neg (h a (List.mem_cons_self a t)),
      ih (fun x hx => h x (List.mem_cons_of_mem a hx))]

/-- C5 counterexample: a report whose stored credibility score is exactly `0`.
The claim's half-open bands put it in the low band (`0 < 0.40`), so the low
filter should keep it; `filteredReports` instead evaluates
`credibility_score || 0.5`, treats the `0` as falsy, scores it `0.5`, drops it
under the low filter, and keeps it under the medium filter. -/
theorem reportPassesFilters_zero_score_counterexample :
    ({ id := "r0", urgency := some "low", credibility_score := some 0,
        description := "d" } : HazardReport).credibility_score = some 0 ∧
    claimKeepsReport "all" "low"
      { id := "r0", urgency := some "low", credibility_score := some 0,
        description := "d" } 0 ∧
    reportPassesFilters "all" "low"
      { id := "r0", urgency := some "low", credibility_score := some 0,
        description := "d" } = false ∧
    reportPassesFilters "all" "medium"
      { id := "r0", urgency := some "low", credibility_score := some 0,
        description := "d" } = true := by
  refine ⟨rfl, ?_, ?_, ?_⟩ <;>
    simp [claimKeepsReport, claimCredBand, reportPassesFilters,
      reportEffectiveScore] <;> norm_num

/-- C5 (amended): the dashboard filter keeps a report iff the urgency filter
is `"all"` or equals the report's urgency, AND the credibility filter is
`"all"` or the report's effective score — the stored score with both a null
score and a stored `0` replaced by `0.5` — falls in the selected half-open
band (high iff `≥ 0.70`, medium iff `0.40 ≤ s < 0.70`, low iff `< 0.40`);
effective scores `0.69`, `0.70` and `0.39` are bucketed medium, high and low
respectively. -/
theorem reportPassesFilters_effective_score_spec (uf cf : String)
    (r : HazardReport)
    (hcf : cf = "all" ∨ cf = "high" ∨ cf = "medium" ∨ cf = "low") :
    (reportPassesFilters uf cf r = true ↔
      (uf = "all" ∨ r.urgency = some uf) ∧
        claimCredBand cf (reportEffectiveScore r.credibility_score)) ∧
    (∀ l, filteredReports uf cf l = l.filter (reportPassesFilters uf cf)) ∧
    reportPassesFilters "all" "medium" ⟨"r69", some "low", some (69/100), "d"⟩ = true ∧
    reportPassesFilters "all" "high" ⟨"r69", some "low", some (69/100), "d"⟩ = false ∧
    reportPassesFilters "all" "low" ⟨"r69", some "low", some (69/100), "d"⟩ = false ∧
    reportPassesFilters "all" "high" ⟨"r70", some "low", some (7/10), "d"⟩ = true ∧
    reportPassesFilters "all" "medium" ⟨"r70", some "low", some (7/10), "d"⟩ = false ∧
    reportPassesFilters "all" "low" ⟨"r70", some "low", some (7/10), "d"⟩ = false ∧
    reportPassesFilters "all" "low" ⟨"r39", some "low", some (39/100), "d"⟩ = true ∧
    reportPassesFilters "all" "medium" ⟨"r39", some "low", some (39/100), "d"⟩ = false ∧
    reportPassesFilters "all" "high" ⟨"r39", some "low", some (39/100), "d"⟩ = false := by
  refine ⟨?_, fun l => rfl, ?_, ?_, ?_, ?_, ?_, ?_, ?_, ?_, ?_⟩
  · rcases hcf with rfl | rfl | rfl | rfl <;>
      simp only [reportPassesFilters, claimCredBand] <;>
      split_ifs <;> simp_all [not_lt, not_le] <;> (try casesm* _ ∨ _) <;> intros <;>
        first | tauto | linarith
  all_goals norm_num [reportPassesFilters, reportEffectiveScore]
  all_goals decide

/-- Witness for C5 (amended) at the low filter and a `0.39`-scored report. -/
theorem reportPassesFilters_effective_score_spec_witness :
    reportPassesFilters "all" "low" ⟨"w", some "low", some (39/100), "d"⟩ = true :=
  (reportPassesFilters_effective_score_spec "all" "low"
      ⟨"w", some "low", some (39/100), "d"⟩
      (Or.inr (Or.inr (Or.inr rfl)))).1.mpr
    ⟨Or.inl rfl, Or.inr (Or.inr (Or.inr ⟨rfl, by norm_num [reportEffectiveScore]⟩))⟩

/-- C6: an insert change event prepends the new report; an update change event
whose id matches an entry replaces exactly that entry in place; an update
change event matching no entry leaves the list unchanged. -/
theorem realtime_event_handlers_spec :
    (∀ (n : HazardReport) (l : List HazardReport), onInsertEvent n l = n :: l) ∧
    (∀ (u : HazardReport) (l : List HazardReport),
      (∀ x ∈ l, x.id ≠ u.id) → onUpdateEvent u l = l) ∧
    (∀ (u r : HazardReport) (l₁ l₂ : List HazardReport),
      r.id = u.id → (∀ x ∈ l₁, x.id ≠ u.id) → (∀ x ∈ l₂, x.id ≠ u.id) →
      onUpdateEvent u (l₁ ++ r :: l₂) = l₁ ++ u :: l₂) := by
  refine ⟨fun n l => rfl, fun u l h => map_replace_no_match u l h, ?_⟩
  intro u r l₁ l₂ hr h1 h2
  simp only [onUpdateEvent, List.map_append, List.map_cons]
  rw [if_pos hr, map_replace_no_match u l₁ h1, map_replace_no_match u l₂ h2]

/-- Witness for C6: an update event with id `"a"` replaces the middle entry
of a three-entry list. -/
theorem realtime_event_handlers_spec_witness :
    onUpdateEvent ⟨"a", none, none, "new"⟩
      ([⟨"b", none, none, "x"⟩] ++ ⟨"a", none, none, "old"⟩ :: [⟨"c", none, none, "y"⟩]) =
      [⟨"b", none, none, "x"⟩] ++ ⟨"a", none, none, "new"⟩ :: [⟨"c", none, none, "y"⟩] :=
  realtime_event_handlers_spec.2.2 ⟨"a", none, none, "new"⟩ ⟨"a", none, none, "old"⟩
    [⟨"b", none, none, "x"⟩] [⟨"c", none, none, "y"⟩] rfl (by decide) (by decide)

/-- C7: an authenticated submission with an empty hazard type, description or
location fails with the missing-information toast and performs no further
step: no upload, no scoring call, no insert, and the report store is
unchanged. -/
theorem handleSubmit_missing_fields (uid : String) (form : FormData)
    (imageFile : Option String) (currentLocation : Option (ℚ × ℚ))
    (uploadFails rpcFails insertFails : Bool) (store : List NewReportRow)
    (h : form.hazardType = "" ∨ form.description = "" ∨ form.location = "") :
    handleSubmit (some uid) form imageFile currentLocation uploadFails rpcFails
      insertFails store = (.missingInformation, store, []) := by
  simp [handleSubmit, h]

/-- Witness for C7: an empty hazard type with every other input present. -/
theorem handleSubmit_missing_fields_witness :
    handleSubmit (some "u") ⟨"", "desc", "loc", ""⟩ (some "img.png") none
      false false false [] = (.missingInformation, [], []) :=
  handleSubmit_missing_fields "u" ⟨"", "desc", "loc", ""⟩ (some "img.png") none
    false false false [] (Or.inl rfl)

/-- C8: a valid authenticated submission with an attached image whose upload
fails aborts with the upload-error outcome, inserts no report row, and leaves
the report store unchanged. -/
theorem handleSubmit_upload_failure (uid : String) (form : FormData)
    (fileName : String) (currentLocation : Option (ℚ × ℚ))
    (rpcFails insertFails : Bool) (store : List NewReportRow)
    (hv : ¬(form.hazardType = "" ∨ form.description = "" ∨ form.location = "")) :
    handleSubmit (some uid) form (some fileName) currentLocation true rpcFails
      insertFails store = (.uploadFailed, store, [.uploadImage]) := by
  simp [handleSubmit, hv]

/-- Witness for C8: a fully filled form whose image upload fails. -/
theorem handleSubmit_upload_failure_witness :
    handleSubmit (some "u") ⟨"High Waves", "big waves", "beach", ""⟩
      (some "img.png") none true false false [] =
      (.uploadFailed, [], [.uploadImage]) :=
  handleSubmit_upload_failure "u" ⟨"High Waves", "big waves", "beach", ""⟩
    "img.png" none false false [] (by simp)

end Owatch
